import Mathlib

/-!
Verification development for the Citi Bike schema-normalization pipeline
(`process_citibike_data_lambda.py`).

The Python module is shallowly embedded: pandas dataframes become lists of
named, typed columns of cells; the JSON schema registry becomes a structure of
association lists (Python dict insertion order = append at end, assignment =
replace-first-or-append); fallible code returns `Except PyError`; the two
places where the code reads "now" (`datetime.now()`) are passed in as explicit
string parameters.  Python string operations used by the code
(`str.lower`, `str.strip`, `str.replace`, `in`, `startswith`, and the three
`re.search` patterns of `extract_metadata_from_filename`) are embedded as
executable functions on `List Char`.
-/

/-- Python exceptions that the embedded code can raise: `NameError` (the
module never imports `os` yet uses it), and `AttributeError` (in the Jersey
City branch of `transform_data`, selecting a DUPLICATED column label yields a
`DataFrame`, and `.dtype` — lines 335/344 — or the `.str` accessor — lines
354/358 — does not exist on a `DataFrame`).  The argument names the missing
attribute. -/
inductive PyError where
  | nameError (missing : String)
  | attributeError (attr : String)
  deriving DecidableEq, Repr

/-- A single value of a dataframe column.  `str`/`int` model pandas object and
integer cells, `timestamp` models a `pd.Timestamp` (encoded as an integer),
`naT` models the missing-timestamp marker `pd.NaT` that
`pd.to_datetime(..., errors='coerce')` produces for unparseable values. -/
inductive Cell where
  | str (s : String)
  | int (n : Int)
  | timestamp (t : Int)
  | naT
  deriving DecidableEq, Repr

/-- One dataframe column: its label, its pandas dtype (as the string
`str(df[col].dtype)` would produce, e.g. "object", "int64"), and its cells. -/
structure Column where
  name : String
  dtype : String
  cells : List Cell
  deriving DecidableEq, Repr

/-- A pandas dataframe: an ordered list of labelled columns.  pandas permits
duplicate labels, hence a list rather than a map. -/
abbrev DataFrame := List Column

/-- The metadata dict built by `extract_metadata_from_filename` (lines
424-429): keys `year`, `month`, `region`, `type`.  `year`/`month` may hold
Python `None`, modelled as `Option`; `region` and `type` are always strings. -/
structure Metadata where
  year : Option String
  month : Option String
  region : String
  ty : String
  deriving DecidableEq, Repr

/-- Per-column record stored in `schema_dict['columns']` (lines 203-209). -/
structure ColumnInfo where
  data_type : String
  first_seen_year : String
  first_seen_month : Option String
  first_seen_region : String
  normalized_name : String
  deriving DecidableEq, Repr

/-- Per-source record stored in `schema_dict['sources']` (lines 183-188). -/
structure SourceEntry where
  year : String
  month : Option String
  region : String
  columns : List String
  deriving DecidableEq, Repr

/-- The schema registry (`schema_dict`): three dicts plus a timestamp, as
initialized by `load_existing_schema` (lines 91-96).  Python dicts are
embedded as association lists in insertion order. -/
structure Schema where
  columns : List (String × ColumnInfo)
  column_mappings : List (String × String)
  sources : List (String × SourceEntry)
  last_updated : String
  deriving DecidableEq, Repr

/-- The empty registry that `load_existing_schema` builds when no schema
object exists yet. -/
def emptySchema (nowIso : String) : Schema :=
  { columns := [], column_mappings := [], sources := [], last_updated := nowIso }

/-! ### Association-list embedding of Python dict operations -/

/-- Python `d[k]` / `d.get(k)`: first (unique, for real dicts) binding. -/
def alookup {α : Type} : List (String × α) → String → Option α
  | [], _ => none
  | (k2, v) :: rest, k => if k2 = k then some v else alookup rest k

/-- Python `d[k] = v`: replace the existing binding in place, else append
(dict insertion order). -/
def setAssoc {α : Type} : List (String × α) → String → α → List (String × α)
  | [], k, v => [(k, v)]
  | (k2, v2) :: rest, k, v =>
      if k2 = k then (k, v) :: rest else (k2, v2) :: setAssoc rest k v

/-! ### Python string primitives used by the module -/

/-- Python `str.lower()` (the module only meets ASCII names). -/
def pyLower (s : String) : String := ⟨s.data.map Char.toLower⟩

/-- Whitespace characters recognised by Python `str.strip()` (the subset that
can occur in CSV headers). -/
def isPyWs (c : Char) : Bool := c = ' ' ∨ c = '\t' ∨ c = '\n' ∨ c = '\r'

/-- Python `str.strip()`. -/
def pyStrip (s : String) : String :=
  ⟨((s.data.dropWhile isPyWs).reverse.dropWhile isPyWs).reverse⟩

/-- `p` occurs at the start of `l` — Python `str.startswith`. -/
def hasPre (p s : String) : Bool := p.data.isPrefixOf s.data

/-- Auxiliary scan for Python's substring test `p in s`. -/
def containsAux (p : List Char) : List Char → Bool
  | [] => p.isPrefixOf []
  | c :: rest => p.isPrefixOf (c :: rest) || containsAux p rest

/-- Python `p in s` (substring containment). -/
def containsSub (s p : String) : Bool := containsAux p.data s.data

/-- Single left-to-right pass deleting non-overlapping occurrences of `p` —
Python `s.replace(p, '')` (also `re.sub(p, '', s)` for these literal
patterns).  Each step consumes at least one character, so recursion on a fuel
counter initialized to the list length is exact (the fuel never runs out). -/
def removeAllFuel (p : List Char) : Nat → List Char → List Char
  | _, [] => []
  | 0, l => l
  | fuel + 1, c :: rest =>
      if p.isPrefixOf (c :: rest) then
        removeAllFuel p fuel (List.drop (p.length - 1) rest)
      else
        c :: removeAllFuel p fuel rest

/-- Python `s.replace(p, '')`. -/
def removeAll (s p : String) : String := ⟨removeAllFuel p.data s.data.length s.data⟩

/-- Python `str(x)` on a cell (pandas `astype(str)` applied cellwise).
Timestamps and NaT render through fixed textual forms. -/
def cellToStr : Cell → String
  | .str s => s
  | .int n => toString n
  | .timestamp t => "Timestamp(" ++ toString t ++ ")"
  | .naT => "NaT"

/-- All-digits numeral (most significant first) to `Nat`. -/
def digitsToNat : List Char → Option Nat
  | [] => none
  | l => if l.all Char.isDigit then
           some (l.foldl (fun acc c => acc * 10 + (c.toNat - '0'.toNat)) 0)
         else none

/-- The numeric grammar accepted by the embedded `pd.to_numeric`: an optional
sign followed by digits (the integer case; station IDs are integers). -/
def pyToInt (s : String) : Option Int :=
  match s.data with
  | '-' :: rest => (digitsToNat rest).map fun n => -(n : Int)
  | l => (digitsToNat l).map fun n => (n : Int)

/-- The timestamp grammar accepted by the embedded
`pd.to_datetime(..., errors='coerce')`: an ISO `YYYY-MM-DD` date, encoded as
the integer `yyyymmdd`.  Anything else is unparseable and coerces to NaT. -/
def parseTs (s : String) : Option Int :=
  match s.data with
  | [y1, y2, y3, y4, '-', m1, m2, '-', d1, d2] =>
      match digitsToNat [y1, y2, y3, y4], digitsToNat [m1, m2], digitsToNat [d1, d2] with
      | some y, some m, some d =>
          if 1 ≤ m ∧ m ≤ 12 ∧ 1 ≤ d ∧ d ≤ 31 then
            some (((y * 100 + m) * 100 + d : Nat) : Int)
          else none
      | _, _, _ => none
  | _ => none

/-! ### Regex scans of `extract_metadata_from_filename`

`re.search` with a `^`-anchored pattern matches only at the start of the
string; without the anchor it finds the leftmost match, advancing one
character at a time. -/

/-- `re.search(r'^(20\d{2})-citibike-tripdata', s)`: group 1 when the string
starts with a 20xx year followed by the literal suffix. -/
def matchAnnualAt (s : String) : Option String :=
  match s.data with
  | c1 :: c2 :: c3 :: c4 :: rest =>
      if c1 = '2' ∧ c2 = '0' ∧ c3.isDigit ∧ c4.isDigit ∧
         "-citibike-tripdata".data.isPrefixOf rest then
        some ⟨[c1, c2, c3, c4]⟩
      else none
  | _ => none

/-- `re.search(r'^(20\d{2})(\d{2})-citibike-tripdata', s)`: (year, month)
groups when the string starts with year+month followed by the suffix. -/
def matchMonthlyAt (s : String) : Option (String × String) :=
  match s.data with
  | c1 :: c2 :: c3 :: c4 :: c5 :: c6 :: rest =>
      if c1 = '2' ∧ c2 = '0' ∧ c3.isDigit ∧ c4.isDigit ∧ c5.isDigit ∧ c6.isDigit ∧
         "-citibike-tripdata".data.isPrefixOf rest then
        some (⟨[c1, c2, c3, c4]⟩, ⟨[c5, c6]⟩)
      else none
  | _ => none

/-- `re.search(r'(20\d{2})', s)`: leftmost unanchored 20xx year. -/
def search4 : List Char → Option String
  | [] => none
  | c :: rest =>
      match rest with
      | c2 :: c3 :: c4 :: _ =>
          if c = '2' ∧ c2 = '0' ∧ c3.isDigit ∧ c4.isDigit then
            some ⟨[c, c2, c3, c4]⟩
          else search4 rest
      | _ => none

/-- `re.search(r'(20\d{2})(\d{2})', s)`: leftmost unanchored year+month;
returns both groups. -/
def search6 : List Char → Option (String × String)
  | [] => none
  | c :: rest =>
      match rest with
      | c2 :: c3 :: c4 :: c5 :: c6 :: _ =>
          if c = '2' ∧ c2 = '0' ∧ c3.isDigit ∧ c4.isDigit ∧ c5.isDigit ∧ c6.isDigit then
            some (⟨[c, c2, c3, c4]⟩, ⟨[c5, c6]⟩)
          else search6 rest
      | _ => none

/-! ### The unbound name `os`

The module's import statements (lines 1-5) bind exactly `boto3`, `pd`, `io`,
`json` and `datetime`; with the module-level constants and function
definitions these are all the names bound at module scope.  `os` is not among
them, so every evaluation of `os.path...` raises
`NameError: name 'os' is not defined`. -/

/-- The names bound at module scope of `process_citibike_data_lambda.py`. -/
def moduleTopLevelNames : List String :=
  ["boto3", "pd", "io", "json", "datetime",
   "SOURCE_BUCKET", "DESTINATION_BUCKET", "SCHEMA_KEY", "PROCESSED_DATA_PREFIX",
   "lambda_handler", "load_existing_schema", "extract_files_from_event",
   "list_unprocessed_files", "read_file_to_dataframe",
   "update_schema_with_new_columns", "normalize_column_name", "transform_data",
   "save_dataframe_to_s3", "save_schema_to_s3", "extract_metadata_from_filename",
   "generate_destination_key"]

/-- Whether a global name lookup succeeds in this module. -/
def nameBound (n : String) : Bool := moduleTopLevelNames.contains n

/-- `os.path.basename(p)`: raises `NameError` when `os` is unbound, otherwise
returns the part after the last slash. -/
def osPathBasename (p : String) : Except PyError String :=
  if nameBound "os" then .ok ((p.splitOn "/").getLastD p)
  else .error (.nameError "os")

/-- `os.path.splitext(p)[-1]`: raises `NameError` when `os` is unbound,
otherwise returns the final extension (with the dot). -/
def osPathSplitextLast (p : String) : Except PyError String :=
  if nameBound "os" then
    .ok (match (p.splitOn ".").reverse with
         | ext :: _ :: _ => "." ++ ext
         | _ => "")
  else .error (.nameError "os")

/-! ### `normalize_column_name` (lines 222-307) -/

/-- The `nyc_mapping` dict literal (lines 234-264), in source order.  The
Python literal repeats the `start_lat`/`start_lng`/`end_lat`/`end_lng` keys
with identical values; the repeats are kept and are harmless under
first-match lookup. -/
def nyc_mapping : List (String × String) :=
  [("tripduration", "trip_duration"),
   ("starttime", "start_time"),
   ("stoptime", "stop_time"),
   ("start_station_name", "start_station_name"),
   ("end_station_name", "end_station_name"),
   ("start_station_id", "start_station_id"),
   ("end_station_id", "end_station_id"),
   ("start_lat", "start_latitude"),
   ("start_lng", "start_longitude"),
   ("end_lat", "end_latitude"),
   ("end_lng", "end_longitude"),
   ("bikeid", "bike_id"),
   ("usertype", "user_type"),
   ("birth_year", "birth_year"),
   ("gender", "gender"),
   ("member_casual", "member_type"),
   ("rideable_type", "rideable_type"),
   ("started_at", "start_time"),
   ("ended_at", "stop_time"),
   ("start_station_latitude", "start_latitude"),
   ("start_station_longitude", "start_longitude"),
   ("end_station_latitude", "end_latitude"),
   ("end_station_longitude", "end_longitude"),
   ("start_lat", "start_latitude"),
   ("start_lng", "start_longitude"),
   ("end_lat", "end_latitude"),
   ("end_lng", "end_longitude"),
   ("station_id", "start_station_id"),
   ("name", "start_station_name")]

/-- The `jc_mapping` dict literal (lines 266-298): textually identical to
`nyc_mapping` today. -/
def jc_mapping : List (String × String) := nyc_mapping

/-- `column_name.replace(' ', '_')` (line 231): every space (only the space
character, not other whitespace) becomes one underscore. -/
def replaceSpaces (s : String) : String :=
  ⟨s.data.map fun c => if c = ' ' then '_' else c⟩

/-- `normalize_column_name(column_name, region)` (lines 222-307): replace
spaces with underscores, then look the result up in the region's alias table,
falling back to the space-replaced name itself. -/
def normalize_column_name (column_name : String) (region : String) : String :=
  let normalized := replaceSpaces column_name
  let mapping := if region = "nyc" then nyc_mapping else jc_mapping
  match alookup mapping normalized with
  | some v => v
  | none => normalized

/-! ### `extract_metadata_from_filename` (lines 413-468)

The function builds the default metadata dict, then immediately evaluates
`os.path.basename(filename)` (line 431) — which raises `NameError` on every
call, since the module never imports `os`.  The parsing logic after that
point (lines 433-468) is embedded below all the same; it is unreachable. -/

def extract_metadata_from_filename (filename : String) : Except PyError Metadata :=
  let md : Metadata := { year := none, month := none, region := "nyc", ty := "unknown" }
  match osPathBasename filename with
  | .error e => .error e
  | .ok base_filename =>
    let (md, base_part) :=
      if containsSub base_filename "JC-" then
        ({ md with region := "jc" }, removeAll base_filename "JC-")
      else (md, base_filename)
    match matchAnnualAt base_part with
    | some y => .ok { md with year := some y, ty := "annual" }
    | none =>
    match matchMonthlyAt base_part with
    | some (y, m) => .ok { md with year := some y, month := some m, ty := "monthly" }
    | none =>
    match search4 base_part.data with
    | some y =>
        match search6 base_part.data with
        | some (_, m) => .ok { md with year := some y, month := some m, ty := "monthly" }
        | none => .ok { md with year := some y, ty := "annual" }
    | none => .ok md

/-! ### `generate_destination_key` (lines 470-489)

Also evaluates `os.path.basename` (line 477), so it raises `NameError` on
every call; the path construction after that point is embedded all the
same.  `file_metadata.get('year', 'unknown')`: the metadata dict always has a
`year` key (possibly `None`), so the default never applies, and `None`
renders as `"None"` inside the f-string. -/

def generate_destination_key (file_key : String) (md : Metadata) : Except PyError String :=
  let year := match md.year with | some y => y | none => "None"
  let region := md.region
  match osPathBasename file_key with
  | .error e => .error e
  | .ok filename =>
    let base_name := (filename.splitOn ".").headD ""
    let monthTruthy : Bool := match md.month with | some m => m != "" | none => false
    if monthTruthy then
      let m := md.month.getD ""
      .ok ("processed_data/" ++ region ++ "/" ++ year ++ "/" ++ m ++ "/" ++ base_name ++ ".parquet")
    else
      .ok ("processed_data/" ++ region ++ "/" ++ year ++ "/" ++ base_name ++ ".parquet")

/-! ### `read_file_to_dataframe` (lines 131-162)

Its whole body sits inside `try: ... except Exception: return None`.  The S3
read is modelled by the `fetch` argument; the first statement after it,
`os.path.splitext(key.lower())[-1]` (line 137), raises `NameError`, which the
blanket `except Exception` catches, so the function returns `None`.  The
pandas CSV/Excel parsing that would follow (lines 139-159) is abstracted as
the `rest` argument; it is unreachable because the `os` lookup fails first. -/

def S3Body := List Nat

def read_file_to_dataframe (fetch : Except PyError S3Body)
    (rest : String → S3Body → Except PyError DataFrame) (key : String) :
    Option DataFrame :=
  match fetch with
  | .error _ => none
  | .ok body =>
    match osPathSplitextLast (pyLower key) with
    | .error _ => none
    | .ok file_ext =>
      match rest file_ext body with
      | .ok df => some df
      | .error _ => none

/-! ### `update_schema_with_new_columns` (lines 164-220)

`datetime.now()` is passed in explicitly: `nowYear` stands for
`str(datetime.now().year)` (line 171) and `nowIso` for
`datetime.now().isoformat()` (line 218). -/

/-- `source_key = f"{region}_{year}"` plus `_{month}` when `month` is truthy
(lines 174-176). -/
def sourceKey (region year : String) (month : Option String) : String :=
  region ++ "_" ++ year ++
    (match month with
     | some m => if m = "" then "" else "_" ++ m
     | none => "")

/-- First half of the `for column in df.columns:` loop body (lines 195-197):
record the column for this source.  The `sources[source_key]` entry is
ensured before the loop, so the `none` branch is unreachable (Python would
raise `KeyError` there). -/
def recordSourceColumn (source_key column_name : String) (sch : Schema) : Schema :=
  match alookup sch.sources source_key with
  | some entry =>
      if column_name ∈ entry.columns then sch
      else { sch with
             sources := setAssoc sch.sources source_key
               { entry with columns := entry.columns ++ [column_name] } }
  | none => sch

/-- Second half of the loop body (lines 199-215): add the column to
`columns` and `column_mappings` only when its key is not yet in `columns`. -/
def addNewColumn (region year : String) (month : Option String)
    (column_name data_type : String) (sch : Schema) : Schema :=
  if (alookup sch.columns column_name).isSome then sch
  else
    let normalized_name := normalize_column_name column_name region
    { sch with
      columns := setAssoc sch.columns column_name
        { data_type := data_type, first_seen_year := year, first_seen_month := month,
          first_seen_region := region, normalized_name := normalized_name },
      column_mappings := setAssoc sch.column_mappings column_name normalized_name }

/-- The body of the `for column in df.columns:` loop (lines 191-215), for one
column. -/
def updateSchemaStep (region year : String) (month : Option String)
    (source_key : String) (sch : Schema) (col : Column) : Schema :=
  let column_name := pyLower (pyStrip col.name)
  addNewColumn region year month column_name col.dtype
    (recordSourceColumn source_key column_name sch)

/-- `update_schema_with_new_columns(schema_dict, df, file_metadata)`
(lines 164-220). -/
def update_schema_with_new_columns (sch : Schema) (df : DataFrame) (md : Metadata)
    (nowYear nowIso : String) : Schema :=
  -- `if not year:` — Python falsiness covers both None and the empty string
  let year := match md.year with
              | some y => if y = "" then nowYear else y
              | none => nowYear
  let month := md.month
  let region := md.region
  let source_key := sourceKey region year month
  let sch :=
    match alookup sch.sources source_key with
    | some _ => sch
    | none => { sch with
                sources := setAssoc sch.sources source_key
                  { year := year, month := month, region := region, columns := [] } }
  let sch := df.foldl (updateSchemaStep region year month source_key) sch
  { sch with last_updated := nowIso }

/-- One processed file in a batch: the dataframe, its metadata and the two
"now" readings of that call. -/
structure UpdateCall where
  df : DataFrame
  md : Metadata
  nowYear : String
  nowIso : String

/-- The registry threaded through a sequence of `update_schema_with_new_columns`
calls, in batch order (the per-file loop of `lambda_handler`, lines 38-69). -/
def applySchemaUpdates (sch : Schema) (calls : List UpdateCall) : Schema :=
  calls.foldl (fun s c => update_schema_with_new_columns s c.df c.md c.nowYear c.nowIso) sch

/-! ### `transform_data` (lines 309-383), split into its four stages -/

/-- The per-column rename target (lines 319-325): consult
`schema_dict['column_mappings']` under the lowercased stripped name, else
normalize afresh. -/
def mapColName (sch : Schema) (region : String) (col : String) : String :=
  let col_lower := pyLower (pyStrip col)
  match alookup sch.column_mappings col_lower with
  | some v => v
  | none => normalize_column_name col_lower region

/-- `df = df.rename(columns=column_mapping)` (lines 317-328): every column is
relabelled independently; colliding targets simply yield duplicate labels. -/
def renameStage (df : DataFrame) (sch : Schema) (region : String) : DataFrame :=
  df.map fun c => { c with name := mapColName sch region c.name }

/-- `str(df[n].dtype)` for the (first) column labelled `n`, when present. -/
def getColDtype (df : DataFrame) (n : String) : Option String :=
  (df.find? fun c => c.name = n).map Column.dtype

/-- How many columns carry the label `n`.  `df[n]` is a Series exactly when
this is 1; on a duplicated label it is a DataFrame, with no `.dtype` and no
`.str`, so those accesses raise `AttributeError`. -/
def countLabel (df : DataFrame) (n : String) : Nat :=
  df.countP fun c => c.name = n

/-- Whether `pd.to_numeric` succeeds on the whole (stringly) column. -/
def allNumeric (cells : List Cell) : Bool :=
  cells.all fun c => (pyToInt (cellToStr c)).isSome

/-- The successful `pd.to_numeric` result on a stringly column. -/
def toNumericCells (cells : List Cell) : List Cell :=
  cells.map fun c =>
    match pyToInt (cellToStr c) with
    | some n => .int n
    | none => c

/-- `s.replace('JC-', '').replace('JC', '')` — every occurrence of the
hyphenated marker deleted, then every occurrence of the bare marker
(lines 337 and 345). -/
def stripJC (s : String) : String := removeAll (removeAll s "JC-") "JC"

/-- One station-id fix block of the `region == 'jc'` branch (lines 335-342
for `start_station_id`, 344-349 for `end_station_id`):
`if n in df.columns and df[n].dtype == 'object':`.  When the label is absent
the block is skipped; when it is DUPLICATED, `df[n].dtype` raises
`AttributeError` before the comparison; when it is unique with object dtype,
stringify each cell and delete the JC markers, then
`try: pd.to_numeric except: pass` — the whole column becomes numeric or is
kept as the stripped strings. -/
def fixStationIds (df : DataFrame) (n : String) : Except PyError DataFrame :=
  if df.any fun c => c.name = n then
    if 2 ≤ countLabel df n then .error (.attributeError "dtype")
    else if getColDtype df n = some "object" then
      .ok ((df.map fun c =>
        if c.name = n then
          { c with dtype := "object",
                   cells := c.cells.map fun cell => .str (stripJC (cellToStr cell)) }
        else c).map fun c =>
        if c.name = n ∧ allNumeric c.cells then
          { c with dtype := "int64", cells := toNumericCells c.cells }
        else c)
    else .ok df
  else .ok df

/-- The masked station-name prefixing (lines 352-355 / 357-359), per cell:
rows whose string form does not start with `'JC - '` get `'JC - ' + str(v)`,
the rest keep their original value. -/
def prefixJCCell (c : Cell) : Cell :=
  if hasPre "JC - " (cellToStr c) then c else .str ("JC - " ++ cellToStr c)

/-- The masked prefixing applied to the column(s) labelled `n`
(the mask/assignment pair, lines 354-355 and 358-359, in the unique-label
case). -/
def prefixCellsAt (df : DataFrame) (n : String) : DataFrame :=
  df.map fun c => if c.name = n then { c with cells := c.cells.map prefixJCCell } else c

/-- One `if '…station_name' in df.columns:` block (lines 352-355 / 357-359).
Absent label: nothing happens.  DUPLICATED label: `df[n].astype(str)` is a
DataFrame and its `.str` accessor raises `AttributeError`.  Unique label:
the masked prefixing is applied. -/
def prefixStationCol (df : DataFrame) (n : String) : Except PyError DataFrame :=
  if df.any fun c => c.name = n then
    if 2 ≤ countLabel df n then .error (.attributeError "str")
    else .ok (prefixCellsAt df n)
  else .ok df

/-- Both station-name prefixing blocks (lines 352-359), in source order. -/
def jcPrefixStep (df : DataFrame) : Except PyError DataFrame :=
  Except.bind (prefixStationCol df "start_station_name") fun df =>
    prefixStationCol df "end_station_name"

/-- Row count of a dataframe (length of its first column). -/
def nRows (df : DataFrame) : Nat :=
  match df with
  | [] => 0
  | c :: _ => c.cells.length

/-- `df[n] = v` for a scalar string `v`: overwrite the column when the label
exists, else append a broadcast column. -/
def setStrCol (df : DataFrame) (n v : String) : DataFrame :=
  if df.any fun c => c.name = n then
    df.map fun c =>
      if c.name = n then { c with dtype := "object", cells := c.cells.map fun _ => .str v }
      else c
  else df ++ [{ name := n, dtype := "object", cells := List.replicate (nRows df) (.str v) }]

/-- The region-specific branch of `transform_data` (lines 330-367).  The
Jersey City steps can raise `AttributeError` (uncaught inside
`transform_data`; `lambda_handler` catches it per file at line 68). -/
def regionStage (df : DataFrame) (region : String) : Except PyError DataFrame :=
  if region = "jc" then
    Except.bind (fixStationIds df "start_station_id") fun df =>
    Except.bind (fixStationIds df "end_station_id") fun df =>
    Except.bind (jcPrefixStep df) fun df =>
    .ok (setStrCol df "region" "jersey_city")
  else .ok (setStrCol df "region" "new_york")

/-- The keyword test of line 372: any of the four temporal keywords occurs in
the lowercased column name. -/
def isTemporalName (n : String) : Bool :=
  ["time", "date", "started_at", "ended_at"].any fun k => containsSub (pyLower n) k

/-- One cell under `pd.to_datetime(column, errors='coerce')`: parseable
strings become timestamps, unparseable ones become NaT (they are NOT kept);
integers are epoch-interpreted; timestamps and NaT pass through. -/
def coerceDatetimeCell : Cell → Cell
  | .str s => match parseTs s with
              | some t => .timestamp t
              | none => .naT
  | .int n => .timestamp n
  | .timestamp t => .timestamp t
  | .naT => .naT

/-- The datetime-conversion loop (lines 370-376).  For a unique temporal
label, `pd.to_datetime(series, errors='coerce')` does not raise and per-value
failures surface as NaT cells.  For a DUPLICATED temporal label, `df[col]` is
a DataFrame and `pd.to_datetime` on it raises (it demands year/month/day
component columns, which a slice of temporal-keyword-named columns lacks) —
the bare `except: pass` catches that, and the columns keep their original
values.  Either way no error leaves the loop. -/
def datetimeStage (df : DataFrame) : DataFrame :=
  df.map fun c =>
    if isTemporalName c.name then
      if countLabel df c.name = 1 then
        { c with dtype := "datetime64", cells := c.cells.map coerceDatetimeCell }
      else c
    else c

/-- The `data_source` tag (lines 379-381).  The metadata dict always has a
`year` key, so `.get('year', 'unknown')` returns its value — `None` when the
year is absent, rendering as `"None"` in the f-string. -/
def dataSourceValue (md : Metadata) : String :=
  let base := md.region ++ "_" ++ (match md.year with | some y => y | none => "None")
  match md.month with
  | some m => if m = "" then base else base ++ "_" ++ m
  | none => base

/-- `transform_data(df, schema_dict, file_metadata)` (lines 309-383).
`Except.error` models an exception escaping the function (only the
`AttributeError` of the Jersey City steps); the datetime loop and the
appended columns never raise. -/
def transform_data (df : DataFrame) (sch : Schema) (md : Metadata) :
    Except PyError DataFrame :=
  let region := md.region
  let df := renameStage df sch region
  Except.bind (regionStage df region) fun df =>
    .ok (setStrCol (datetimeStage df) "data_source" (dataSourceValue md))

/-- The claim C6 growth order on registries: every key of `columns` and
`column_mappings` stays present, and every `sources` entry stays present with
a column list that only gains elements. -/
def SchemaLE (s1 s2 : Schema) : Prop :=
  (∀ k, (alookup s1.columns k).isSome → (alookup s2.columns k).isSome) ∧
  (∀ k, (alookup s1.column_mappings k).isSome → (alookup s2.column_mappings k).isSome) ∧
  (∀ k e, alookup s1.sources k = some e →
    ∃ e2, alookup s2.sources k = some e2 ∧ ∀ cn ∈ e.columns, cn ∈ e2.columns)

/-! ## Helper lemmas -/

theorem alookup_setAssoc_self {α : Type} (l : List (String × α)) (k : String) (v : α) :
    alookup (setAssoc l k v) k = some v := by
  induction l with
  | nil => simp [setAssoc, alookup]
  | cons p rest ih =>
      obtain ⟨k2, v2⟩ := p
      by_cases h : k2 = k
      · simp [setAssoc, alookup, h]
      · simp [setAssoc, alookup, h, ih]

theorem alookup_setAssoc_ne {α : Type} (l : List (String × α)) (k : String) (v : α)
    (k' : String) (h : k' ≠ k) :
    alookup (setAssoc l k v) k' = alookup l k' := by
  induction l with
  | nil => simp [setAssoc, alookup, Ne.symm h]
  | cons p rest ih =>
      obtain ⟨k2, v2⟩ := p
      by_cases h2 : k2 = k
      · subst h2
        simp [setAssoc, alookup, Ne.symm h]
      · simp [setAssoc, alookup, h2, ih]

theorem isPrefixOf_append_self (l r : List Char) : l.isPrefixOf (l ++ r) = true := by
  induction l with
  | nil => simp [List.isPrefixOf]
  | cons c cs ih => simp [List.isPrefixOf, ih]

theorem hasPre_append (p t : String) : hasPre p (p ++ t) = true := by
  simp only [hasPre, String.data_append]
  exact isPrefixOf_append_self p.data t.data

/-! ## Claims about the unbound name `os` (C1, C2) -/

/-- Claim C1 (code bug): the spec — and the function's own docstring — say
`extract_metadata_from_filename("2021-citibike-tripdata.zip")` returns
`{year="2021", month absent, region=nyc, grain=annual}` without raising.  The
code instead raises `NameError` at this (and every) input, because line 431
evaluates `os.path.basename` and the module never imports `os`. -/
theorem extract_metadata_nameerror_at_annual_input :
    extract_metadata_from_filename "2021-citibike-tripdata.zip" =
      Except.error (PyError.nameError "os") := rfl

/-- Claim C2, counterexample: the claim says `read_file_to_dataframe` fails
identically to `extract_metadata_from_filename` (i.e. raises `NameError`).
At a concrete input the extractor does raise `NameError`, but
`read_file_to_dataframe` raises nothing — its blanket `except Exception`
(lines 160-162) catches the `NameError` and the call returns `None`. -/
theorem read_file_returns_none_but_extract_raises :
    read_file_to_dataframe (Except.ok []) (fun _ _ => Except.ok [])
      "result_files/202101-citibike-tripdata.csv" = none ∧
    extract_metadata_from_filename "result_files/202101-citibike-tripdata.csv" =
      Except.error (PyError.nameError "os") := ⟨rfl, rfl⟩

/-- Claim C2 (amended): every call to `extract_metadata_from_filename` and to
`generate_destination_key` raises `NameError` (the name `os` is unbound at
module scope); `read_file_to_dataframe` hits the same unbound name on every
call, but its blanket `except Exception` swallows the `NameError` and it
returns `None` instead of raising. -/
theorem unbound_os_failure_modes :
    (∀ filename, extract_metadata_from_filename filename =
        Except.error (PyError.nameError "os")) ∧
    (∀ key md, generate_destination_key key md =
        Except.error (PyError.nameError "os")) ∧
    (∀ fetch rest key, read_file_to_dataframe fetch rest key = none) := by
  have hos : nameBound "os" = false := rfl
  refine ⟨fun filename => ?_, fun key md => ?_, fun fetch rest key => ?_⟩
  · simp [extract_metadata_from_filename, osPathBasename, hos]
  · simp [generate_destination_key, osPathBasename, hos]
  · cases fetch with
    | ok body => simp [read_file_to_dataframe, osPathSplitextLast, hos]
    | error e => simp [read_file_to_dataframe]

/-! ## Claims about `normalize_column_name` (C4, C10) -/

/-- Claim C4, counterexample: the claim says the normalizer itself lowercases
and trims, so names differing only by case or edge whitespace normalize
alike.  It does neither: `"Tripduration"` (differing from `"tripduration"`
only by case) and `" tripduration"` (only by leading whitespace) both miss
the alias table and come back unchanged, while `"tripduration"` maps to
`"trip_duration"`. -/
theorem normalize_not_case_insensitive :
    normalize_column_name "Tripduration" "nyc" ≠ normalize_column_name "tripduration" "nyc" ∧
    pyLower "Tripduration" = pyLower "tripduration" ∧
    normalize_column_name " tripduration" "nyc" ≠ normalize_column_name "tripduration" "nyc" ∧
    pyStrip " tripduration" = pyStrip "tripduration" := by
  refine ⟨?_, rfl, ?_, rfl⟩ <;> decide

/-- Claim C4 (amended): `normalize_column_name` only replaces each space
character with an underscore before the alias lookup — it does not lowercase,
trim, or collapse whitespace runs.  Hence raw names that agree after
space-to-underscore replacement get the same canonical name (this is the
docstring's `'start_station_id'` / `'start station id'` example); full
case/whitespace-insensitivity holds only because the callers (lines 192, 320,
325) pass `col.strip().lower()` into it. -/
theorem normalize_space_underscore_invariance (s1 s2 region : String)
    (h : replaceSpaces s1 = replaceSpaces s2) :
    normalize_column_name s1 region = normalize_column_name s2 region := by
  unfold normalize_column_name
  rw [h]

/-- Witness for `normalize_space_underscore_invariance`. -/
theorem normalize_space_underscore_invariance_witness :
    replaceSpaces "start station id" = replaceSpaces "start_station_id" ∧
    normalize_column_name "start station id" "nyc" =
      normalize_column_name "start_station_id" "nyc" :=
  ⟨by decide,
   normalize_space_underscore_invariance "start station id" "start_station_id" "nyc" (by decide)⟩

/-- Claim C10: the alias tables of both regions map `'station_id'` and
`'start_station_id'` to the same canonical name `'start_station_id'`, and
`'name'` and `'start_station_name'` to `'start_station_name'`, so
`normalize_column_name` is not injective on distinct already-normalized
tokens. -/
theorem normalize_alias_collisions :
    normalize_column_name "station_id" "nyc" = "start_station_id" ∧
    normalize_column_name "start_station_id" "nyc" = "start_station_id" ∧
    normalize_column_name "name" "nyc" = "start_station_name" ∧
    normalize_column_name "start_station_name" "nyc" = "start_station_name" ∧
    normalize_column_name "station_id" "jc" = "start_station_id" ∧
    normalize_column_name "start_station_id" "jc" = "start_station_id" ∧
    normalize_column_name "name" "jc" = "start_station_name" ∧
    normalize_column_name "start_station_name" "jc" = "start_station_name" ∧
    ("station_id" : String) ≠ "start_station_id" ∧
    ("name" : String) ≠ "start_station_name" :=
  ⟨rfl, rfl, rfl, rfl, rfl, rfl, rfl, rfl, by decide, by decide⟩

/-! ## Claim C8: idempotence of the Jersey City station-name prefixing -/

theorem prefixJCCell_idem (c : Cell) : prefixJCCell (prefixJCCell c) = prefixJCCell c := by
  by_cases h : hasPre "JC - " (cellToStr c) = true
  · simp [prefixJCCell, h]
  · have h2 : hasPre "JC - " (cellToStr (Cell.str ("JC - " ++ cellToStr c))) = true := by
      simpa [cellToStr] using hasPre_append "JC - " (cellToStr c)
    simp [prefixJCCell, h, h2]

theorem map_prefixJCCell_idem (l : List Cell) :
    (l.map prefixJCCell).map prefixJCCell = l.map prefixJCCell := by
  rw [List.map_map]
  exact List.map_congr_left fun c _ => prefixJCCell_idem c

theorem any_prefixCellsAt (df : DataFrame) (n m : String) :
    ((prefixCellsAt df n).any fun c => c.name = m) = (df.any fun c => c.name = m) := by
  unfold prefixCellsAt
  induction df with
  | nil => rfl
  | cons c rest ih =>
      simp only [List.map_cons, List.any_cons, ih]
      congr 1
      by_cases h : c.name = n <;> simp [h]

theorem countLabel_prefixCellsAt (df : DataFrame) (n m : String) :
    countLabel (prefixCellsAt df n) m = countLabel df m := by
  unfold countLabel prefixCellsAt
  induction df with
  | nil => rfl
  | cons c rest ih =>
      simp only [List.map_cons, List.countP_cons, ih]
      congr 1
      by_cases h : c.name = n <;> simp [h]

theorem prefixCellsAt_idem (df : DataFrame) (n : String) :
    prefixCellsAt (prefixCellsAt df n) n = prefixCellsAt df n := by
  unfold prefixCellsAt
  rw [List.map_map]
  refine List.map_congr_left fun c _ => ?_
  simp only [Function.comp_apply]
  by_cases h : c.name = n
  · simp [h]
    intro a _
    exact prefixJCCell_idem a
  · simp [h]

theorem prefixPair_idem (df : DataFrame) :
    prefixCellsAt (prefixCellsAt (prefixCellsAt (prefixCellsAt df "start_station_name")
      "end_station_name") "start_station_name") "end_station_name" =
    prefixCellsAt (prefixCellsAt df "start_station_name") "end_station_name" := by
  unfold prefixCellsAt
  simp only [List.map_map]
  refine List.map_congr_left fun c _ => ?_
  simp only [Function.comp_apply]
  by_cases h1 : c.name = "start_station_name" <;> by_cases h2 : c.name = "end_station_name"
  · rw [h1] at h2; exact absurd h2 (by decide)
  · simp [h1, h2]
    intro a _
    exact prefixJCCell_idem a
  · simp [h1, h2]
    intro a _
    exact prefixJCCell_idem a
  · simp [h1, h2]

theorem jcPrefixStep_kleisli (df : DataFrame) :
    Except.bind (jcPrefixStep df) jcPrefixStep = jcPrefixStep df := by
  unfold jcPrefixStep prefixStationCol
  by_cases hs : (df.any fun c => c.name = "start_station_name") = true
  · by_cases hs2 : 2 ≤ countLabel df "start_station_name"
    · simp [hs, hs2, Except.bind]
    · by_cases he : (df.any fun c => c.name = "end_station_name") = true
      · by_cases he2 : 2 ≤ countLabel df "end_station_name"
        · simp [hs, hs2, he, he2, Except.bind, any_prefixCellsAt, countLabel_prefixCellsAt]
        · simp [hs, hs2, he, he2, Except.bind, any_prefixCellsAt, countLabel_prefixCellsAt,
                prefixPair_idem, prefixCellsAt_idem]
      · simp [hs, hs2, he, Except.bind, any_prefixCellsAt, countLabel_prefixCellsAt,
              prefixCellsAt_idem]
  · by_cases he : (df.any fun c => c.name = "end_station_name") = true
    · by_cases he2 : 2 ≤ countLabel df "end_station_name"
      · simp [hs, he, he2, Except.bind]
      · simp [hs, he, he2, Except.bind, any_prefixCellsAt, countLabel_prefixCellsAt,
              prefixCellsAt_idem]
    · simp [hs, he, Except.bind]

/-- Claim C8: the station-name prefixing step of the Jersey City branch of
`transform_data` is idempotent.  At the cell level no value is ever
double-prefixed (an already-prefixed value is left alone); the masked
per-column prefixing applied twice yields exactly the column values of
applying it once; and the full guarded step — which fails on a duplicated
station-name label — is idempotent in the Kleisli sense: running the step
again on its own outcome changes nothing. -/
theorem jc_prefix_idempotent :
    (∀ df : DataFrame, Except.bind (jcPrefixStep df) jcPrefixStep = jcPrefixStep df) ∧
    (∀ df : DataFrame,
      prefixCellsAt (prefixCellsAt (prefixCellsAt (prefixCellsAt df "start_station_name")
        "end_station_name") "start_station_name") "end_station_name" =
      prefixCellsAt (prefixCellsAt df "start_station_name") "end_station_name") ∧
    (∀ c : Cell, prefixJCCell (prefixJCCell c) = prefixJCCell c) :=
  ⟨jcPrefixStep_kleisli, prefixPair_idem, prefixJCCell_idem⟩

/-! ## Claim C6: the registry is append-only -/

theorem SchemaLE_refl (s : Schema) : SchemaLE s s :=
  ⟨fun _ h => h, fun _ h => h, fun _ e he => ⟨e, he, fun _ hc => hc⟩⟩

theorem SchemaLE_trans {a b c : Schema} (h1 : SchemaLE a b) (h2 : SchemaLE b c) :
    SchemaLE a c := by
  obtain ⟨c1, m1, s1⟩ := h1
  obtain ⟨c2, m2, s2⟩ := h2
  refine ⟨fun k h => c2 k (c1 k h), fun k h => m2 k (m1 k h), fun k e he => ?_⟩
  obtain ⟨e1, he1, hsub1⟩ := s1 k e he
  obtain ⟨e2, he2, hsub2⟩ := s2 k e1 he1
  exact ⟨e2, he2, fun cn hc => hsub2 cn (hsub1 cn hc)⟩

theorem alookup_setAssoc_isSome {α : Type} (l : List (String × α)) (k : String) (v : α)
    (k' : String) (h : (alookup l k').isSome) :
    (alookup (setAssoc l k v) k').isSome := by
  by_cases hk : k' = k
  · subst hk
    simp [alookup_setAssoc_self]
  · rw [alookup_setAssoc_ne l k v k' hk]
    exact h

theorem recordSourceColumn_le (sk cn : String) (sch : Schema) :
    SchemaLE sch (recordSourceColumn sk cn sch) := by
  unfold recordSourceColumn
  cases hsk : alookup sch.sources sk with
  | none => exact SchemaLE_refl sch
  | some entry =>
      by_cases hm : cn ∈ entry.columns
      · simp only [hm, if_true]
        exact SchemaLE_refl sch
      · simp only [hm, if_false]
        refine ⟨fun k h => h, fun k h => h, fun k e he => ?_⟩
        by_cases hk : k = sk
        · subst hk
          rw [hsk] at he
          have hee : entry = e := by injection he
          refine ⟨{ entry with columns := entry.columns ++ [cn] }, ?_, ?_⟩
          · exact alookup_setAssoc_self sch.sources _ _
          · intro c hc
            rw [← hee] at hc
            exact List.mem_append_left _ hc
        · refine ⟨e, ?_, fun c hc => hc⟩
          rw [alookup_setAssoc_ne sch.sources sk _ k hk]
          exact he

theorem addNewColumn_le (region year : String) (month : Option String)
    (cn dt : String) (sch : Schema) :
    SchemaLE sch (addNewColumn region year month cn dt sch) := by
  unfold addNewColumn
  by_cases hg : (alookup sch.columns cn).isSome
  · simp only [hg, if_true]
    exact SchemaLE_refl sch
  · simp only [hg, if_false]
    exact ⟨fun k h => alookup_setAssoc_isSome sch.columns cn _ k h,
           fun k h => alookup_setAssoc_isSome sch.column_mappings cn _ k h,
           fun k e he => ⟨e, he, fun c hc => hc⟩⟩

theorem updateSchemaStep_le (region year : String) (month : Option String)
    (sk : String) (sch : Schema) (col : Column) :
    SchemaLE sch (updateSchemaStep region year month sk sch col) :=
  SchemaLE_trans (recordSourceColumn_le sk (pyLower (pyStrip col.name)) sch)
    (addNewColumn_le region year month (pyLower (pyStrip col.name)) col.dtype _)

theorem foldl_updateSchemaStep_le (region year : String) (month : Option String)
    (sk : String) (df : DataFrame) :
    ∀ sch : Schema, SchemaLE sch (df.foldl (updateSchemaStep region year month sk) sch) := by
  induction df with
  | nil => exact fun sch => SchemaLE_refl sch
  | cons col rest ih =>
      intro sch
      exact SchemaLE_trans (updateSchemaStep_le region year month sk sch col)
        (ih (updateSchemaStep region year month sk sch col))

theorem ensureSource_le (sch : Schema) (sk : String) (entry : SourceEntry)
    (hsk : alookup sch.sources sk = none) :
    SchemaLE sch { sch with sources := setAssoc sch.sources sk entry } := by
  refine ⟨fun k h => h, fun k h => h, fun k e he => ?_⟩
  have hk : k ≠ sk := by
    intro h
    subst h
    rw [hsk] at he
    exact Option.noConfusion he
  refine ⟨e, ?_, fun c hc => hc⟩
  show alookup (setAssoc sch.sources sk entry) k = some e
  rw [alookup_setAssoc_ne sch.sources sk entry k hk]
  exact he

theorem update_schema_le (sch : Schema) (df : DataFrame) (md : Metadata)
    (nowYear nowIso : String) :
    SchemaLE sch (update_schema_with_new_columns sch df md nowYear nowIso) := by
  unfold update_schema_with_new_columns
  generalize (match md.year with
              | some y => if y = "" then nowYear else y
              | none => nowYear) = Y
  cases hsk : alookup sch.sources (sourceKey md.region Y md.month) with
  | some e =>
      simp only [hsk]
      exact foldl_updateSchemaStep_le _ _ _ _ df sch
  | none =>
      simp only [hsk]
      exact SchemaLE_trans
        (ensureSource_le sch (sourceKey md.region Y md.month)
          { year := Y, month := md.month, region := md.region, columns := [] } hsk)
        (foldl_updateSchemaStep_le _ _ _ _ df _)

theorem applySchemaUpdates_le (sch : Schema) (calls : List UpdateCall) :
    SchemaLE sch (applySchemaUpdates sch calls) := by
  induction calls generalizing sch with
  | nil => exact SchemaLE_refl sch
  | cons c rest ih =>
      exact SchemaLE_trans (update_schema_le sch c.df c.md c.nowYear c.nowIso)
        (ih (update_schema_with_new_columns sch c.df c.md c.nowYear c.nowIso))

/-- Claim C6: the registry is append-only.  After any sequence of
`update_schema_with_new_columns` calls, every key present in `columns`,
`column_mappings` or `sources` before is still present after, and each
`sources` entry's recorded column list only gains elements. -/
theorem registry_append_only (sch : Schema) (calls : List UpdateCall) (k : String) :
    ((alookup sch.columns k).isSome →
      (alookup (applySchemaUpdates sch calls).columns k).isSome) ∧
    ((alookup sch.column_mappings k).isSome →
      (alookup (applySchemaUpdates sch calls).column_mappings k).isSome) ∧
    (∀ e, alookup sch.sources k = some e →
      ∃ e2, alookup (applySchemaUpdates sch calls).sources k = some e2 ∧
        ∀ cn ∈ e.columns, cn ∈ e2.columns) := by
  obtain ⟨hc, hm, hs⟩ := applySchemaUpdates_le sch calls
  exact ⟨hc k, hm k, fun e he => hs k e he⟩

/-- Witness for `registry_append_only`: a registry holding `tripduration`
still holds it after a further update call. -/
theorem registry_append_only_witness :
    (alookup (update_schema_with_new_columns (emptySchema "t0")
        [{ name := "tripduration", dtype := "int64", cells := [Cell.int 5] }]
        { year := some "2021", month := some "01", region := "nyc", ty := "monthly" }
        "2025" "t1").columns "tripduration").isSome = true ∧
    (alookup (applySchemaUpdates
        (update_schema_with_new_columns (emptySchema "t0")
          [{ name := "tripduration", dtype := "int64", cells := [Cell.int 5] }]
          { year := some "2021", month := some "01", region := "nyc", ty := "monthly" }
          "2025" "t1")
        [{ df := [{ name := "Birth Year", dtype := "float64", cells := [] }],
           md := { year := some "2022", month := none, region := "jc", ty := "annual" },
           nowYear := "2025", nowIso := "t2" }]).columns "tripduration").isSome = true :=
  ⟨rfl,
   (registry_append_only
     (update_schema_with_new_columns (emptySchema "t0")
       [{ name := "tripduration", dtype := "int64", cells := [Cell.int 5] }]
       { year := some "2021", month := some "01", region := "nyc", ty := "monthly" }
       "2025" "t1")
     [{ df := [{ name := "Birth Year", dtype := "float64", cells := [] }],
        md := { year := some "2022", month := none, region := "jc", ty := "annual" },
        nowYear := "2025", nowIso := "t2" }]
     "tripduration").1 rfl⟩

/-! ## Claim C7: first-seen wins for known columns -/

theorem recordSourceColumn_columns (sk cn : String) (sch : Schema) :
    (recordSourceColumn sk cn sch).columns = sch.columns := by
  unfold recordSourceColumn
  cases h : alookup sch.sources sk with
  | none => rfl
  | some entry => by_cases hm : cn ∈ entry.columns <;> simp [hm]

theorem recordSourceColumn_mappings (sk cn : String) (sch : Schema) :
    (recordSourceColumn sk cn sch).column_mappings = sch.column_mappings := by
  unfold recordSourceColumn
  cases h : alookup sch.sources sk with
  | none => rfl
  | some entry => by_cases hm : cn ∈ entry.columns <;> simp [hm]

theorem addNewColumn_preserves (region year : String) (month : Option String)
    (cn dt : String) (sch : Schema) (cname : String) (info : ColumnInfo)
    (h : alookup sch.columns cname = some info) :
    alookup (addNewColumn region year month cn dt sch).columns cname = some info ∧
    alookup (addNewColumn region year month cn dt sch).column_mappings cname =
      alookup sch.column_mappings cname := by
  unfold addNewColumn
  by_cases hg : (alookup sch.columns cn).isSome
  · rw [if_pos hg]
    exact ⟨h, rfl⟩
  · have hne : cname ≠ cn := by
      intro he
      subst he
      rw [h] at hg
      exact hg rfl
    rw [if_neg hg]
    refine ⟨?_, ?_⟩
    · show alookup (setAssoc sch.columns cn _) cname = some info
      rw [alookup_setAssoc_ne sch.columns cn _ cname hne]
      exact h
    · show alookup (setAssoc sch.column_mappings cn _) cname = alookup sch.column_mappings cname
      exact alookup_setAssoc_ne sch.column_mappings cn _ cname hne

theorem updateSchemaStep_preserves (region year : String) (month : Option String)
    (sk : String) (sch : Schema) (col : Column) (cname : String) (info : ColumnInfo)
    (h : alookup sch.columns cname = some info) :
    alookup (updateSchemaStep region year month sk sch col).columns cname = some info ∧
    alookup (updateSchemaStep region year month sk sch col).column_mappings cname =
      alookup sch.column_mappings cname := by
  unfold updateSchemaStep
  have h1 := recordSourceColumn_columns sk (pyLower (pyStrip col.name)) sch
  have h2 := recordSourceColumn_mappings sk (pyLower (pyStrip col.name)) sch
  have h3 : alookup (recordSourceColumn sk (pyLower (pyStrip col.name)) sch).columns cname =
      some info := by
    rw [h1]; exact h
  have hp := addNewColumn_preserves region year month (pyLower (pyStrip col.name))
    col.dtype _ cname info h3
  exact ⟨hp.1, by rw [hp.2, h2]⟩

theorem foldl_updateSchemaStep_preserves (region year : String) (month : Option String)
    (sk : String) (df : DataFrame) :
    ∀ (sch : Schema) (cname : String) (info : ColumnInfo),
      alookup sch.columns cname = some info →
      alookup ((df.foldl (updateSchemaStep region year month sk) sch)).columns cname =
        some info ∧
      alookup ((df.foldl (updateSchemaStep region year month sk) sch)).column_mappings cname =
        alookup sch.column_mappings cname := by
  induction df with
  | nil =>
      intro sch cname info h
      exact ⟨h, rfl⟩
  | cons col rest ih =>
      intro sch cname info h
      have hstep := updateSchemaStep_preserves region year month sk sch col cname info h
      have hrec := ih (updateSchemaStep region year month sk sch col) cname info hstep.1
      exact ⟨hrec.1, hrec.2.trans hstep.2⟩

/-- Claim C7: first-seen wins.  For any raw column name already present as a
key of `schema_dict['columns']`, a later `update_schema_with_new_columns`
call — whatever data types, file or region it observes — leaves that column's
recorded entry (data type, first-seen year/month/region, normalized name) and
its `column_mappings` entry unchanged. -/
theorem first_seen_wins (sch : Schema) (df : DataFrame) (md : Metadata)
    (nowYear nowIso : String) (cname : String) (info : ColumnInfo)
    (h : alookup sch.columns cname = some info) :
    alookup (update_schema_with_new_columns sch df md nowYear nowIso).columns cname =
      some info ∧
    alookup (update_schema_with_new_columns sch df md nowYear nowIso).column_mappings cname =
      alookup sch.column_mappings cname := by
  unfold update_schema_with_new_columns
  generalize (match md.year with
              | some y => if y = "" then nowYear else y
              | none => nowYear) = Y
  cases hsk : alookup sch.sources (sourceKey md.region Y md.month) with
  | some e =>
      simp only [hsk]
      exact foldl_updateSchemaStep_preserves md.region Y md.month _ df sch cname info h
  | none =>
      simp only [hsk]
      exact foldl_updateSchemaStep_preserves md.region Y md.month _ df _ cname info h

/-- Witness for `first_seen_wins`: `tripduration` first seen as `int64`, then
observed again as text (`object`) in another region — the recorded entry
keeps the integer type. -/
theorem first_seen_wins_witness :
    alookup (update_schema_with_new_columns (emptySchema "t0")
        [{ name := "tripduration", dtype := "int64", cells := [Cell.int 5] }]
        { year := some "2021", month := some "01", region := "nyc", ty := "monthly" }
        "2025" "t1").columns "tripduration" =
      some { data_type := "int64", first_seen_year := "2021", first_seen_month := some "01",
             first_seen_region := "nyc", normalized_name := "trip_duration" } ∧
    alookup (update_schema_with_new_columns
        (update_schema_with_new_columns (emptySchema "t0")
          [{ name := "tripduration", dtype := "int64", cells := [Cell.int 5] }]
          { year := some "2021", month := some "01", region := "nyc", ty := "monthly" }
          "2025" "t1")
        [{ name := "Tripduration", dtype := "object", cells := [Cell.str "x"] }]
        { year := some "2022", month := none, region := "jc", ty := "annual" }
        "2025" "t2").columns "tripduration" =
      some { data_type := "int64", first_seen_year := "2021", first_seen_month := some "01",
             first_seen_region := "nyc", normalized_name := "trip_duration" } :=
  ⟨rfl,
   (first_seen_wins
     (update_schema_with_new_columns (emptySchema "t0")
       [{ name := "tripduration", dtype := "int64", cells := [Cell.int 5] }]
       { year := some "2021", month := some "01", region := "nyc", ty := "monthly" }
       "2025" "t1")
     [{ name := "Tripduration", dtype := "object", cells := [Cell.str "x"] }]
     { year := some "2022", month := none, region := "jc", ty := "annual" }
     "2025" "t2" "tripduration"
     { data_type := "int64", first_seen_year := "2021", first_seen_month := some "01",
       first_seen_region := "nyc", normalized_name := "trip_duration" } rfl).1⟩

/-! ## Claim C3: no collision detection in the rename stage -/

theorem renameStage_names (df : DataFrame) (sch : Schema) (r : String) :
    (renameStage df sch r).map Column.name = df.map fun c => mapColName sch r c.name := by
  unfold renameStage
  rw [List.map_map]
  exact List.map_congr_left fun c _ => rfl

theorem datetimeStage_names (df : DataFrame) :
    (datetimeStage df).map Column.name = df.map Column.name := by
  unfold datetimeStage
  rw [List.map_map]
  refine List.map_congr_left fun c _ => ?_
  simp only [Function.comp_apply]
  split
  · split <;> rfl
  · rfl

theorem transform_data_eq (df : DataFrame) (sch : Schema) (md : Metadata) :
    transform_data df sch md =
      Except.bind (regionStage (renameStage df sch md.region) md.region) fun d =>
        Except.ok (setStrCol (datetimeStage d) "data_source" (dataSourceValue md)) := rfl

theorem setStrCol_names_absent (df : DataFrame) (n v : String)
    (h : n ∉ df.map Column.name) :
    (setStrCol df n v).map Column.name = df.map Column.name ++ [n] := by
  unfold setStrCol
  have hany : (df.any fun c => c.name = n) = false := by
    rw [List.any_eq_false]
    intro c hc
    simp only [decide_eq_true_eq]
    intro he
    exact h (List.mem_map.mpr ⟨c, hc, he⟩)
  rw [hany]
  simp

/-- Claim C3, counterexample: the claim says a dataset with two raw columns
mapping to the same canonical name makes the transform raise a
`StructuralRenameError`.  No such error type exists anywhere in the module:
on a dataset with columns `station_id` and `start_station_id` (both
normalizing to `start_station_id`), `transform_data` completes normally and
returns a dataframe carrying BOTH columns under the duplicate label
`start_station_id`, with both columns' data intact. -/
theorem transform_duplicate_labels_no_error :
    transform_data
      [{ name := "station_id", dtype := "int64", cells := [Cell.int 1] },
       { name := "start_station_id", dtype := "int64", cells := [Cell.int 2] }]
      (emptySchema "")
      { year := some "2021", month := some "01", region := "nyc", ty := "monthly" } =
    Except.ok
      [{ name := "start_station_id", dtype := "int64", cells := [Cell.int 1] },
       { name := "start_station_id", dtype := "int64", cells := [Cell.int 2] },
       { name := "region", dtype := "object", cells := [Cell.str "new_york"] },
       { name := "data_source", dtype := "object", cells := [Cell.str "nyc_2021_01"] }] := rfl

/-- Claim C3 (amended): `transform_data` performs no collision detection and
no `StructuralRenameError` exists; the rename stage relabels every column
independently, producing duplicate labels on a collision.  Outside the Jersey
City branch the transform then completes without error: for every non-jc
dataset (whose rename targets avoid the reserved `region`/`data_source`
labels) the output is `ok`, its labels exactly the per-column rename targets
— duplicates preserved, both columns retained — plus the appended `region`
and `data_source` columns.  When a jc dataset's collision lands on a station
column, a later step instead trips an uncaught `AttributeError`
(`df[n].astype(str).str` on a DataFrame, line 354) — an incidental failure,
not the specified structural check: the second conjunct shows it for raw
columns `name` and `start_station_name`, which both rename to
`start_station_name`. -/
theorem transform_collision_no_structural_error :
    (∀ (df : DataFrame) (sch : Schema) (md : Metadata),
      md.region ≠ "jc" →
      "region" ∉ (df.map fun c => mapColName sch md.region c.name) →
      "data_source" ∉ (df.map fun c => mapColName sch md.region c.name) →
      ∃ out, transform_data df sch md = Except.ok out ∧
        out.map Column.name =
          (df.map fun c => mapColName sch md.region c.name) ++ ["region", "data_source"]) ∧
    transform_data
      [{ name := "name", dtype := "object", cells := [Cell.str "A"] },
       { name := "start_station_name", dtype := "object", cells := [Cell.str "B"] }]
      (emptySchema "") { year := none, month := none, region := "jc", ty := "unknown" } =
      Except.error (PyError.attributeError "str") := by
  constructor
  · intro df sch md hr h1 h2
    have hreg : regionStage (renameStage df sch md.region) md.region =
        Except.ok (setStrCol (renameStage df sch md.region) "region" "new_york") := by
      unfold regionStage
      rw [if_neg hr]
    refine ⟨setStrCol (datetimeStage (setStrCol (renameStage df sch md.region)
      "region" "new_york")) "data_source" (dataSourceValue md), ?_, ?_⟩
    · rw [transform_data_eq, hreg]
      rfl
    · have n1 := renameStage_names df sch md.region
      have habs1 : "region" ∉ (renameStage df sch md.region).map Column.name := by
        rw [n1]; exact h1
      have n2 := setStrCol_names_absent (renameStage df sch md.region)
        "region" "new_york" habs1
      have n3 := datetimeStage_names
        (setStrCol (renameStage df sch md.region) "region" "new_york")
      have habs2 : "data_source" ∉ (datetimeStage (setStrCol (renameStage df sch md.region)
          "region" "new_york")).map Column.name := by
        rw [n3, n2, n1]
        simp only [List.mem_append, List.mem_singleton]
        rintro (hmem | hmem)
        · exact h2 hmem
        · exact absurd hmem (by decide)
      rw [setStrCol_names_absent _ _ _ habs2, n3, n2, n1, List.append_assoc]
      rfl
  · rfl

/-- Witness for `transform_collision_no_structural_error` at the colliding
nyc input. -/
theorem transform_collision_no_structural_error_witness :
    ∃ out, transform_data
        [{ name := "station_id", dtype := "int64", cells := [Cell.int 1] },
         { name := "start_station_id", dtype := "int64", cells := [Cell.int 2] }]
        (emptySchema "")
        { year := some "2021", month := some "01", region := "nyc", ty := "monthly" } =
        Except.ok out ∧
      out.map Column.name =
        (([{ name := "station_id", dtype := "int64", cells := [Cell.int 1] },
           { name := "start_station_id", dtype := "int64", cells := [Cell.int 2] }] :
             DataFrame).map fun c => mapColName (emptySchema "") "nyc" c.name) ++
          ["region", "data_source"] :=
  transform_collision_no_structural_error.1
    [{ name := "station_id", dtype := "int64", cells := [Cell.int 1] },
     { name := "start_station_id", dtype := "int64", cells := [Cell.int 2] }]
    (emptySchema "")
    { year := some "2021", month := some "01", region := "nyc", ty := "monthly" }
    (by decide) (by decide) (by decide)

/-! ## Claim C5: per-value temporal conversion failures become NaT -/

theorem coerceDatetimeCell_out (x : Cell) :
    (∃ t, coerceDatetimeCell x = Cell.timestamp t) ∨ coerceDatetimeCell x = Cell.naT := by
  cases x with
  | str s =>
      cases h : parseTs s with
      | some t => exact Or.inl ⟨t, by simp [coerceDatetimeCell, h]⟩
      | none => exact Or.inr (by simp [coerceDatetimeCell, h])
  | int n => exact Or.inl ⟨n, rfl⟩
  | timestamp t => exact Or.inl ⟨t, rfl⟩
  | naT => exact Or.inr rfl

theorem mem_setStrCol (df : DataFrame) (n v : String) (c : Column)
    (hc : c ∈ setStrCol df n v) :
    c.name = n ∨ c ∈ df := by
  unfold setStrCol at hc
  split at hc
  · obtain ⟨c0, hc0, he⟩ := List.mem_map.mp hc
    by_cases h : c0.name = n
    · left
      rw [← he]
      simp [h]
    · right
      rw [← he]
      simpa [h] using hc0
  · rcases List.mem_append.mp hc with h | h
    · right; exact h
    · left
      rw [List.mem_singleton.mp h]

/-- Claim C5 (amended): for every column of a successfully transformed
dataset whose canonical name contains a temporal keyword, the conversion
either coerced every cell — each cell is then a timestamp or NaT, per-value
failures having been replaced by NaT (`errors='coerce'`), NOT left unmodified
— or, when the whole-column conversion raised (a duplicated temporal label
makes `pd.to_datetime(df[col])` raise and `except: pass` fires), the column
is left verbatim as it stood before the datetime loop; either way no error is
propagated to the caller.  The second conjunct exhibits the
whole-column-failure path: a duplicated `start_time` label passes through the
datetime loop with all original values intact. -/
theorem temporal_coerce_or_column_left_unmodified :
    (∀ (df : DataFrame) (sch : Schema) (md : Metadata) (out : DataFrame) (c : Column),
      transform_data df sch md = Except.ok out → c ∈ out →
      isTemporalName c.name = true →
      (∀ cell ∈ c.cells, (∃ t, cell = Cell.timestamp t) ∨ cell = Cell.naT) ∨
      (∃ mid, regionStage (renameStage df sch md.region) md.region = Except.ok mid ∧
        c ∈ mid)) ∧
    datetimeStage
      [{ name := "start_time", dtype := "object", cells := [Cell.str "2021-01-01"] },
       { name := "start_time", dtype := "object", cells := [Cell.str "notadate"] }] =
      [{ name := "start_time", dtype := "object", cells := [Cell.str "2021-01-01"] },
       { name := "start_time", dtype := "object", cells := [Cell.str "notadate"] }] := by
  constructor
  · intro df sch md out c hok hc ht
    rw [transform_data_eq] at hok
    cases hr : regionStage (renameStage df sch md.region) md.region with
    | error e =>
        rw [hr] at hok
        exact absurd hok (by simp [Except.bind])
    | ok mid =>
        rw [hr] at hok
        have hout : setStrCol (datetimeStage mid) "data_source" (dataSourceValue md) =
            out := by
          simpa [Except.bind] using hok
        rw [← hout] at hc
        rcases mem_setStrCol _ _ _ c hc with hds | hmem
        · rw [hds] at ht
          exact absurd ht (by decide)
        · obtain ⟨c1, hc1, he⟩ := List.mem_map.mp hmem
          by_cases h1 : isTemporalName c1.name = true
          · by_cases h2 : countLabel mid c1.name = 1
            · left
              rw [← he]
              simp only [h1, h2, if_true]
              intro cell hcell
              obtain ⟨x, _, hx⟩ := List.mem_map.mp hcell
              rw [← hx]
              exact coerceDatetimeCell_out x
            · right
              refine ⟨mid, rfl, ?_⟩
              rw [← he]
              simp only [h1, h2, if_true, if_false]
              exact hc1
          · rw [← he] at ht
            simp only [h1, if_false] at ht
            exact absurd ht h1
  · rfl

/-- Claim C5, counterexample: the claim says a per-value conversion failure
leaves the column unmodified.  On a `start_time` column holding the
unparseable value `"notadate"`, the column is NOT left unmodified: the value
is coerced to NaT. -/
theorem temporal_value_failure_becomes_nat :
    transform_data [{ name := "start_time", dtype := "object", cells := [Cell.str "notadate"] }]
      (emptySchema "") { year := none, month := none, region := "nyc", ty := "unknown" } =
    Except.ok
      [{ name := "start_time", dtype := "datetime64", cells := [Cell.naT] },
       { name := "region", dtype := "object", cells := [Cell.str "new_york"] },
       { name := "data_source", dtype := "object", cells := [Cell.str "nyc_None"] }] ∧
    Cell.naT ≠ Cell.str "notadate" := ⟨rfl, by decide⟩

/-- Witness for `temporal_coerce_or_column_left_unmodified` at the
`start_time` column of a concrete transform output. -/
theorem temporal_coerce_or_column_left_unmodified_witness :
    (transform_data
        [{ name := "start_time", dtype := "object", cells := [Cell.str "notadate"] }]
        (emptySchema "") { year := none, month := none, region := "nyc", ty := "unknown" } =
      Except.ok
        [{ name := "start_time", dtype := "datetime64", cells := [Cell.naT] },
         { name := "region", dtype := "object", cells := [Cell.str "new_york"] },
         { name := "data_source", dtype := "object", cells := [Cell.str "nyc_None"] }]) ∧
    ((∀ cell ∈ (Column.mk "start_time" "datetime64" [Cell.naT]).cells,
        (∃ t, cell = Cell.timestamp t) ∨ cell = Cell.naT) ∨
      (∃ mid, regionStage (renameStage
          [{ name := "start_time", dtype := "object", cells := [Cell.str "notadate"] }]
          (emptySchema "") "nyc") "nyc" = Except.ok mid ∧
        Column.mk "start_time" "datetime64" [Cell.naT] ∈ mid)) :=
  ⟨rfl,
   temporal_coerce_or_column_left_unmodified.1
     [{ name := "start_time", dtype := "object", cells := [Cell.str "notadate"] }]
     (emptySchema "") { year := none, month := none, region := "nyc", ty := "unknown" }
     [{ name := "start_time", dtype := "datetime64", cells := [Cell.naT] },
      { name := "region", dtype := "object", cells := [Cell.str "new_york"] },
      { name := "data_source", dtype := "object", cells := [Cell.str "nyc_None"] }]
     { name := "start_time", dtype := "datetime64", cells := [Cell.naT] }
     rfl (by decide) (by decide)⟩

/-! ## Claim C9: Jersey City station-id stripping deletes the marker anywhere -/

/-- Claim C9: when region is `jc` and a station-id column has object dtype,
`transform_data` stringifies each cell and deletes every occurrence of the
substring `'JC-'` and then every occurrence of `'JC'` anywhere inside the
value — not only a leading marker — and then attempts numeric conversion of
the whole column, keeping the stripped strings when conversion fails.  The
concrete conjuncts show mid-string deletion: `"123JC45"` loses its interior
`'JC'`. -/
theorem jc_station_id_strip :
    (∀ cells : List Cell,
      transform_data
        [{ name := "start_station_id", dtype := "object", cells := cells }]
        (emptySchema "") { year := none, month := none, region := "jc", ty := "unknown" } =
      Except.ok
        [(if allNumeric (cells.map fun cell => Cell.str (stripJC (cellToStr cell))) then
            { name := "start_station_id", dtype := "int64",
              cells := toNumericCells (cells.map fun cell => Cell.str (stripJC (cellToStr cell))) }
          else
            { name := "start_station_id", dtype := "object",
              cells := cells.map fun cell => Cell.str (stripJC (cellToStr cell)) }),
         { name := "region", dtype := "object",
           cells := List.replicate cells.length (Cell.str "jersey_city") },
         { name := "data_source", dtype := "object",
           cells := List.replicate cells.length (Cell.str "jc_None") }]) ∧
    stripJC "123JC45" = "12345" ∧ stripJC "JC-3186" = "3186" ∧
    stripJC "12JC-3JC" = "123" ∧ stripJC "JC3186" = "3186" := by
  refine ⟨fun cells => ?_, rfl, rfl, rfl, rfl⟩
  have t1 : transform_data
      [{ name := "start_station_id", dtype := "object", cells := cells }]
      (emptySchema "") { year := none, month := none, region := "jc", ty := "unknown" } =
    Except.bind (regionStage
      [{ name := "start_station_id", dtype := "object", cells := cells }] "jc")
      (fun d => Except.ok (setStrCol (datetimeStage d) "data_source" "jc_None")) := rfl
  have r1 : regionStage
      [{ name := "start_station_id", dtype := "object", cells := cells }] "jc" =
    Except.bind (fixStationIds
      [{ name := "start_station_id", dtype := "object", cells := cells }]
      "start_station_id") (fun df =>
    Except.bind (fixStationIds df "end_station_id") fun df =>
    Except.bind (jcPrefixStep df) fun df =>
    Except.ok (setStrCol df "region" "jersey_city")) := rfl
  have a2 : fixStationIds
      [{ name := "start_station_id", dtype := "object", cells := cells }]
      "start_station_id" =
    Except.ok
      [if ("start_station_id" : String) = "start_station_id" ∧
          allNumeric (cells.map fun cell => Cell.str (stripJC (cellToStr cell))) then
         { name := "start_station_id", dtype := "int64",
           cells := toNumericCells (cells.map fun cell => Cell.str (stripJC (cellToStr cell))) }
       else
         { name := "start_station_id", dtype := "object",
           cells := cells.map fun cell => Cell.str (stripJC (cellToStr cell)) }] := rfl
  have a3 : ∀ (d : String) (cl : List Cell),
      Except.bind (Except.ok [Column.mk "start_station_id" d cl]) (fun df =>
        Except.bind (fixStationIds df "end_station_id") fun df =>
        Except.bind (jcPrefixStep df) fun df =>
        Except.ok (setStrCol df "region" "jersey_city")) =
      Except.ok [Column.mk "start_station_id" d cl,
        Column.mk "region" "object" (List.replicate cl.length (Cell.str "jersey_city"))] :=
    fun _ _ => rfl
  by_cases hn : allNumeric (cells.map fun cell => Cell.str (stripJC (cellToStr cell))) = true
  · have hlen : (toNumericCells (cells.map fun cell =>
        Cell.str (stripJC (cellToStr cell)))).length = cells.length := by
      simp [toNumericCells, List.length_map]
    rw [if_pos hn, ← hlen, t1, r1]
    rw [a2, if_pos ⟨rfl, hn⟩, a3]
    rfl
  · have hlen : (cells.map fun cell =>
        Cell.str (stripJC (cellToStr cell))).length = cells.length := List.length_map _ _
    rw [if_neg hn, ← hlen, t1, r1]
    rw [a2, if_neg (fun hand => hn hand.2), a3]
    rfl
